import Mathlib

/-!
Verification development for the reaper repository, centred on the
Suspect Classification Engine (src/src/analyzers/suspect_filter.py), the
Research Resolver and Recommendation Aggregator
(src/src/analyzers/ai_researcher.py), and the Audit/Rollback Journal
(src/src/utils/logger.py).  Inventory records are Python dictionaries;
they are embedded as association lists from string keys to a value type
mirroring the Python value shapes the code manipulates.  Regular
expressions are embedded abstractly as Boolean matchers carrying their
source text.  Field reads follow Python dict.get semantics; reads of a
field at an unexpected type (which would raise in Python and cannot occur
for the record shapes documented in the data model) are normalized to the
get default.
-/

/-- Values stored in an inventory record field: strings, numbers,
booleans, None, lists of strings (reason lists), and flat string
dictionaries (knowledge-base entries). -/
inductive Val where
  | str : String → Val
  | num : ℚ → Val
  | bool : Bool → Val
  | none : Val
  | list : List String → Val
  | dict : List (String × String) → Val
deriving DecidableEq

/-- Python truthiness of a value, as used by conditions such as
if item.get("enabled", True) and if success and rollback_command. -/
def Val.truthy : Val → Bool
  | Val.str s => s != ""
  | Val.num q => q != 0
  | Val.bool b => b
  | Val.none => false
  | Val.list l => !l.isEmpty
  | Val.dict d => !d.isEmpty

/-- Python str() of a value, as applied by f-string interpolation. -/
def Val.pyStr : Val → String
  | Val.str s => s
  | Val.num q => toString q
  | Val.bool b => if b then "True" else "False"
  | Val.none => "None"
  | Val.list l => toString l
  | Val.dict d => toString d

/-- An inventory record: a Python dictionary with string keys, embedded
as an association list (first binding of a key wins on lookup). -/
abbrev Rec := List (String × Val)

/-- Dictionary lookup: the value bound to a key, if any. -/
def getK (r : Rec) (k : String) : Option Val :=
  match r with
  | [] => Option.none
  | (k2, v) :: rest => if k2 = k then some v else getK rest k

/-- Dictionary assignment: replace the binding of a key in place, or
append a new binding at the end, as Python dict assignment does. -/
def setK (r : Rec) (k : String) (v : Val) : Rec :=
  match r with
  | [] => [(k, v)]
  | (k2, v2) :: rest => if k2 = k then (k2, v) :: rest else (k2, v2) :: setK rest k v

theorem getK_setK_same (r : Rec) (k : String) (v : Val) :
    getK (setK r k v) k = some v := by
  induction r with
  | nil => simp [setK, getK]
  | cons p rest ih =>
    obtain ⟨k2, v2⟩ := p
    by_cases h : k2 = k
    · simp [setK, getK, h]
    · simp [setK, getK, h, ih]

theorem getK_setK_ne (r : Rec) (k k2 : String) (v : Val) (h : k2 ≠ k) :
    getK (setK r k v) k2 = getK r k2 := by
  have hk : k ≠ k2 := fun hh => h hh.symm
  induction r with
  | nil => simp [setK, getK, hk]
  | cons p rest ih =>
    obtain ⟨k3, v3⟩ := p
    by_cases h3 : k3 = k
    · subst h3
      simp [setK, getK, hk]
    · simp [setK, getK, h3, ih]

/-- Read a field expected to hold a string, with a dict.get default. -/
def strFieldD (r : Rec) (k : String) (d : String) : String :=
  match getK r k with
  | some (Val.str s) => s
  | some _ => d
  | Option.none => d

/-- The f-string rendering of item.get(k, ""): empty for an absent key,
Python str() of the stored value otherwise. -/
def pyFieldStr (r : Rec) (k : String) : String :=
  match getK r k with
  | some v => v.pyStr
  | Option.none => ""

/-- Read a numeric field with dict.get default 0 (a stored Python bool
counts as 0 or 1, since bool is an int subtype). -/
def numField (r : Rec) (k : String) : ℚ :=
  match getK r k with
  | some (Val.num q) => q
  | some (Val.bool b) => if b then 1 else 0
  | _ => 0

/-- Truthiness of item.get(k): false for an absent key. -/
def truthyField (r : Rec) (k : String) : Bool :=
  match getK r k with
  | some v => v.truthy
  | Option.none => false

/-- Python substring containment (needle in hay) over character data. -/
def strContains (hay needle : String) : Bool :=
  (List.range (hay.data.length + 1)).any fun i => needle.data.isPrefixOf (hay.data.drop i)

/-- String starts-with test over character data. -/
def strStartsWith (s p : String) : Bool := p.data.isPrefixOf s.data

/-- Python str.lower() over character data (ASCII case folding applied
per character, as Char.toLower does). -/
def strLower (s : String) : String := String.mk (s.data.map Char.toLower)

/-- A compiled classification rule: the original pattern source string
plus its matcher (the compiled regular expression is embedded abstractly
as a Boolean matcher over the search text). -/
structure Pattern where
  src : String
  test : String → Bool

/-- Pattern catalogue compilation: built-in defaults first, then
operator-supplied extensions appended after them; a rule that fails to
compile is skipped (the try/except around re.compile). -/
def compilePatterns (compile : String → Option Pattern) (defaults extra : List String) :
    List Pattern :=
  (defaults ++ extra).filterMap compile

/-- State of a SuspectFilter after initialization: compiled patterns,
the lower-cased Critical-Keep Set, the two resource thresholds, the
non-Microsoft flag, and the known-processes mapping. -/
structure SuspectFilter where
  patterns : List Pattern
  critical_keep : List String
  high_memory_threshold : ℚ
  high_cpu_threshold : ℚ
  flag_non_microsoft : Bool
  known_processes : List (String × Val)

/-- The for-break loop over compiled patterns: on the first rule whose
matcher accepts the search text, append one bloatware-pattern reason and
stop testing patterns. -/
def patternLoop (ps : List Pattern) (txt : String) (reasons : List String) : List String :=
  match ps with
  | [] => reasons
  | p :: rest =>
    if p.test txt then reasons ++ ["Matches bloatware pattern: " ++ p.src]
    else patternLoop rest txt reasons

/-- The case-folded record name, proc.get("name", "").lower(). -/
def nameLower (r : Rec) : String := strLower (strFieldD r "name" "")

/-- Concatenated search text for a process record. -/
def fullTextProcess (r : Rec) : String :=
  pyFieldStr r "name" ++ " " ++ pyFieldStr r "exe_path" ++ " " ++ pyFieldStr r "cmdline"

/-- Concatenated search text for a service record. -/
def fullTextService (r : Rec) : String :=
  pyFieldStr r "name" ++ " " ++ pyFieldStr r "display_name" ++ " " ++ pyFieldStr r "path"

/-- Concatenated search text for a startup-item record. -/
def fullTextStartup (r : Rec) : String :=
  pyFieldStr r "name" ++ " " ++ pyFieldStr r "command"

/-- Concatenated search text for a scheduled-task record. -/
def fullTextTask (r : Rec) : String :=
  pyFieldStr r "name" ++ " " ++ pyFieldStr r "path" ++ " " ++ pyFieldStr r "actions"

/-- SuspectFilter._get_suspect_reasons_process. -/
def suspectReasonsProcess (f : SuspectFilter) (r : Rec) : List String :=
  if nameLower r ∈ f.critical_keep then []
  else
    let r1 := patternLoop f.patterns (fullTextProcess r) []
    let memp := numField r "memory_percent"
    let r2 := if f.high_memory_threshold < memp then
        r1 ++ ["High memory usage: " ++ toString memp ++ "%"] else r1
    let cpup := numField r "cpu_percent"
    let r3 := if f.high_cpu_threshold < cpup then
        r2 ++ ["High CPU usage: " ++ toString cpup ++ "%"] else r2
    if f.flag_non_microsoft then
      match getK r "signature" with
      | some Val.none => if truthyField r "exe_path" then
            r3 ++ ["Unsigned or signature not found"] else r3
      | Option.none => if truthyField r "exe_path" then
            r3 ++ ["Unsigned or signature not found"] else r3
      | some v =>
        if v.truthy && !strContains v.pyStr "Microsoft" then
          r3 ++ ["Non-Microsoft signed: " ++ v.pyStr] else r3
    else r3

/-- SuspectFilter._get_suspect_reasons_service. -/
def suspectReasonsService (f : SuspectFilter) (r : Rec) : List String :=
  if nameLower r ∈ f.critical_keep then []
  else
    let r1 := patternLoop f.patterns (fullTextService r) []
    let r2 := if !truthyField r "is_microsoft" && decide (getK r "start_mode" = some (Val.str "Auto"))
        then r1 ++ ["Third-party service set to Auto start"] else r1
    if !truthyField r "is_microsoft" && decide (getK r "state" = some (Val.str "Running"))
    then r2 ++ ["Third-party service currently running"] else r2

/-- Truthiness of item.get("enabled", True): an absent enabled field
defaults to true. -/
def enabledFlag (r : Rec) : Bool :=
  match getK r "enabled" with
  | some v => v.truthy
  | Option.none => true

/-- SuspectFilter._get_suspect_reasons_startup. -/
def suspectReasonsStartup (f : SuspectFilter) (r : Rec) : List String :=
  if nameLower r ∈ f.critical_keep then []
  else
    let r1 := patternLoop f.patterns (fullTextStartup r) []
    if enabledFlag r then r1 ++ ["Enabled startup item"] else r1

/-- SuspectFilter._get_suspect_reasons_task. -/
def suspectReasonsTask (f : SuspectFilter) (r : Rec) : List String :=
  if nameLower r ∈ f.critical_keep then []
  else
    let r1 := patternLoop f.patterns (fullTextTask r) []
    let r2 := if !truthyField r "is_microsoft" && truthyField r "runs_at_logon"
        then r1 ++ ["Third-party task runs at logon/boot"] else r1
    if !truthyField r "is_microsoft" && decide (getK r "state" = some (Val.str "Ready"))
    then r2 ++ ["Third-party task is enabled"] else r2

/-- Exact-name lookup in the known-processes mapping, in iteration
order. -/
def lookupExact (kb : List (String × Val)) (name : String) : Option Val :=
  match kb with
  | [] => Option.none
  | (k, v) :: rest => if k = name then some v else lookupExact rest name

/-- Case-insensitive exact lookup in the known-processes mapping, in
iteration order. -/
def lookupCaseFold (kb : List (String × Val)) (name : String) : Option Val :=
  match kb with
  | [] => Option.none
  | (k, v) :: rest => if strLower k = strLower name then some v else lookupCaseFold rest name

/-- SuspectFilter._get_known_info: exact match, then case-insensitive
match, then None.  Note: no substring fallback here. -/
def suspectGetKnownInfo (kb : List (String × Val)) (name : String) : Option Val :=
  match lookupExact kb name with
  | some v => some v
  | Option.none => lookupCaseFold kb name

/-- The per-record body of the four filter loops: set is_suspect from
the reason count, set suspect_reasons, then set known_info from the
lookup on the record name. -/
def markRecord (f : SuspectFilter) (reasons : List String) (r : Rec) : Rec :=
  let r1 := setK r "is_suspect" (Val.bool (decide (0 < reasons.length)))
  let r2 := setK r1 "suspect_reasons" (Val.list reasons)
  setK r2 "known_info" ((suspectGetKnownInfo f.known_processes (strFieldD r2 "name" "")).getD Val.none)

/-- One iteration of SuspectFilter.filter_processes. -/
def markProcess (f : SuspectFilter) (r : Rec) : Rec :=
  markRecord f (suspectReasonsProcess f r) r

/-- One iteration of SuspectFilter.filter_services. -/
def markService (f : SuspectFilter) (r : Rec) : Rec :=
  markRecord f (suspectReasonsService f r) r

/-- One iteration of SuspectFilter.filter_startup_items. -/
def markStartup (f : SuspectFilter) (r : Rec) : Rec :=
  markRecord f (suspectReasonsStartup f r) r

/-- One iteration of SuspectFilter.filter_tasks. -/
def markTask (f : SuspectFilter) (r : Rec) : Rec :=
  markRecord f (suspectReasonsTask f r) r

/-- SuspectFilter.filter_processes. -/
def filterProcesses (f : SuspectFilter) (l : List Rec) : List Rec := l.map (markProcess f)

/-- SuspectFilter.filter_services. -/
def filterServices (f : SuspectFilter) (l : List Rec) : List Rec := l.map (markService f)

/-- SuspectFilter.filter_startup_items. -/
def filterStartupItems (f : SuspectFilter) (l : List Rec) : List Rec := l.map (markStartup f)

/-- SuspectFilter.filter_tasks. -/
def filterTasks (f : SuspectFilter) (l : List Rec) : List Rec := l.map (markTask f)

/-- Read a field expected to hold a list of strings, with dict.get
default empty. -/
def listFieldD (r : Rec) (k : String) : List String :=
  match getK r k with
  | some (Val.list l) => l
  | _ => []

/-- Read a knowledge-base entry field: known_info.get(k) on a dictionary
value, None otherwise. -/
def kiGet (v : Val) (k : String) : Option String :=
  match v with
  | Val.dict d => lookupStr d k
  | _ => Option.none
where
  lookupStr : List (String × String) → String → Option String
    | [], _ => Option.none
    | (k2, s) :: rest, key => if k2 = key then some s else lookupStr rest key

/-- The substring stage of AIResearcher._lookup_known: first entry whose
lower-cased key is contained in the lower-cased name or vice versa. -/
def lookupSub (kb : List (String × Val)) (nl : String) : Option Val :=
  match kb with
  | [] => Option.none
  | (k, v) :: rest =>
    if strContains nl (strLower k) || strContains (strLower k) nl then some v
    else lookupSub rest nl

/-- AIResearcher._lookup_known: exact match, then case-insensitive exact
match, then bidirectional substring match. -/
def lookupKnown (kb : List (String × Val)) (name : String) : Option Val :=
  match lookupExact kb name with
  | some v => some v
  | Option.none =>
    match lookupCaseFold kb name with
    | some v => some v
    | Option.none => lookupSub kb (strLower name)

/-- The known-information selection in AIResearcher.research_item:
item.get("known_info") or self._lookup_known(name), with Python or
falling through on a falsy attached value. -/
def chooseKnown (kb : List (String × Val)) (item : Rec) : Option Val :=
  match getK item "known_info" with
  | some v => if v.truthy then some v else lookupKnown kb (strFieldD item "name" "Unknown")
  | Option.none => lookupKnown kb (strFieldD item "name" "Unknown")

/-- The path value probed by AIResearcher._guess_category:
item.get("exe_path", item.get("path", item.get("command", ""))). -/
def guessPathVal (item : Rec) : Val :=
  match getK item "exe_path" with
  | some v => v
  | Option.none =>
    match getK item "path" with
    | some v => v
    | Option.none =>
      match getK item "command" with
      | some v => v
      | Option.none => Val.str ""

/-- The lower-cased name probed by AIResearcher._guess_category,
item.get("name", "").lower(). -/
def guessName (item : Rec) : String := strLower (strFieldD item "name" "")

/-- The lower-cased path string probed by AIResearcher._guess_category. -/
def guessPath (item : Rec) : String := strLower (guessPathVal item).pyStr

/-- AIResearcher._guess_category: the cascade of keyword tests over the
lower-cased name and path. -/
def guessCategory (item : Rec) : String :=
  let name := guessName item
  let path := guessPath item
  if ["update", "updater"].any (fun x => strContains name x || strContains path x) then
    "updater"
  else if ["rgb", "chroma", "lighting", "icue"].any (fun x => strContains name x || strContains path x) then
    "rgb_software"
  else if ["copilot", "recall", "cortana", "ai"].any (fun x => strContains name x || strContains path x) then
    "ai_feature"
  else if ["telemetry", "diag", "feedback"].any (fun x => strContains name x || strContains path x) then
    "telemetry"
  else if ["game", "steam", "epic", "xbox"].any (fun x => strContains name x || strContains path x) then
    "gaming"
  else if ["driver", "drv"].any (fun x => strContains name x || strContains path x) then
    "driver"
  else if ["security", "antivirus", "defender"].any (fun x => strContains name x || strContains path x) then
    "security"
  else "unknown"

/-- The fixed ordered keyword buckets of the category guesser, as the
specification lists them. -/
def categoryBuckets : List (String × List String) :=
  [("updater", ["update", "updater"]),
   ("rgb_software", ["rgb", "chroma", "lighting", "icue"]),
   ("ai_feature", ["copilot", "recall", "cortana", "ai"]),
   ("telemetry", ["telemetry", "diag", "feedback"]),
   ("gaming", ["game", "steam", "epic", "xbox"]),
   ("driver", ["driver", "drv"]),
   ("security", ["security", "antivirus", "defender"])]

/-- The specification wording for the category guess: the first keyword
bucket, in the fixed order, one of whose keywords occurs in the name or
the path, else unknown. -/
def firstBucketSpec (name path : String) : String :=
  match categoryBuckets.find? (fun b => b.2.any fun x => strContains name x || strContains path x) with
  | some b => b.1
  | Option.none => "unknown"

/-- The fixed path-substring to publisher hint table of
AIResearcher._extract_publisher, in source order. -/
def publisherTable : List (String × String) :=
  [("microsoft", "Microsoft"), ("google", "Google"), ("adobe", "Adobe"),
   ("nvidia", "NVIDIA"), ("amd", "AMD"), ("intel", "Intel"),
   ("razer", "Razer Inc."), ("corsair", "Corsair"), ("logitech", "Logitech"),
   ("steam", "Valve"), ("discord", "Discord Inc.")]

/-- First publisher hint whose key occurs in the path. -/
def findPublisher (t : List (String × String)) (path : String) : Option String :=
  match t with
  | [] => Option.none
  | (k, p) :: rest => if strContains path k then some p else findPublisher rest path

/-- The path value probed by AIResearcher._extract_publisher:
item.get("exe_path", item.get("path", "")). -/
def publisherPathVal (item : Rec) : Val :=
  match getK item "exe_path" with
  | some v => v
  | Option.none =>
    match getK item "path" with
    | some v => v
    | Option.none => Val.str ""

/-- AIResearcher._extract_publisher. -/
def extractPublisher (item : Rec) : Option String :=
  if truthyField item "signature" then some (pyFieldStr item "signature")
  else if truthyField item "author" then some (pyFieldStr item "author")
  else findPublisher publisherTable (strLower (publisherPathVal item).pyStr)

/-- A field value that is present and truthy, else None (one arm of a
Python or-chain over dict.get calls). -/
def truthyGet (r : Rec) (k : String) : Option Val :=
  match getK r k with
  | some v => if v.truthy then some v else Option.none
  | Option.none => Option.none

/-- The path probed by AIResearcher._generate_research_notes:
item.get("exe_path") or item.get("path") or item.get("command"). -/
def notesPathVal (item : Rec) : Val :=
  match truthyGet item "exe_path" with
  | some v => v
  | Option.none =>
    match truthyGet item "path" with
    | some v => v
    | Option.none => (getK item "command").getD Val.none

/-- AIResearcher._generate_research_notes. -/
def generateResearchNotes (item : Rec) : String :=
  let name := strFieldD item "name" "Unknown"
  let base := ["Item \x27" ++ name ++ "\x27 requires manual research.",
    "\nSuggested searches:",
    "  - \"" ++ name ++ " what is\"",
    "  - \"" ++ name ++ " safe to disable\"",
    "  - \"" ++ name ++ " Windows 11\""]
  let pathv := notesPathVal item
  let withPath := if pathv.truthy then base ++ ["\nFile location: " ++ pathv.pyStr] else base
  let reasons := listFieldD item "suspect_reasons"
  let withReasons :=
    if !reasons.isEmpty then
      withPath ++ ["\nFlagged because:"] ++ reasons.map (fun s => "  - " ++ s)
    else withPath
  String.intercalate "\n" withReasons

/-- A field value with dict.get default None. -/
def getVD (r : Rec) (k : String) : Val := (getK r k).getD Val.none

/-- AIResearcher._extract_item_details. -/
def itemDetails (item : Rec) (t : String) : List (String × Val) :=
  [("type", Val.str t)] ++
  (if t = "process" then
    [("pid", getVD item "pid"), ("exe_path", getVD item "exe_path"),
     ("memory_mb", getVD item "memory_mb"), ("cpu_percent", getVD item "cpu_percent"),
     ("parent", getVD item "parent_name")]
   else if t = "service" then
    [("display_name", getVD item "display_name"), ("state", getVD item "state"),
     ("start_mode", getVD item "start_mode"), ("path", getVD item "path"),
     ("account", getVD item "account")]
   else if t = "startup" then
    [("command", getVD item "command"), ("source", getVD item "source"),
     ("location", getVD item "location"), ("enabled", getVD item "enabled")]
   else if t = "task" then
    [("path", getVD item "path"), ("state", getVD item "state"),
     ("triggers", getVD item "triggers"), ("actions", getVD item "actions"),
     ("runs_at_logon", getVD item "runs_at_logon")]
   else [])

/-- The research record built by AIResearcher.research_item. -/
structure ResearchResult where
  name : String
  rtype : String
  researched_at : String
  suspect_reasons : List String
  source : String
  category : Option String
  publisher : Option String
  purpose : Option String
  recommendation : Option String
  safety_rating : Option String
  notes : Option String
  requires_further_research : Bool
  item_details : List (String × Val)
deriving DecidableEq

/-- AIResearcher.research_item, with the research timestamp passed in
explicitly. -/
def researchItem (kb : List (String × Val)) (item : Rec) (t ts : String) : ResearchResult :=
  let name := strFieldD item "name" "Unknown"
  match chooseKnown kb item with
  | some ki =>
    { name := name, rtype := t, researched_at := ts,
      suspect_reasons := listFieldD item "suspect_reasons",
      source := "known_processes_database",
      category := kiGet ki "category", publisher := kiGet ki "publisher",
      purpose := kiGet ki "purpose", recommendation := kiGet ki "recommendation",
      safety_rating := kiGet ki "safety_rating", notes := kiGet ki "notes",
      requires_further_research := false,
      item_details := itemDetails item t }
  | Option.none =>
    { name := name, rtype := t, researched_at := ts,
      suspect_reasons := listFieldD item "suspect_reasons",
      source := "needs_research",
      category := some (guessCategory item), publisher := extractPublisher item,
      purpose := some "Unknown - requires research",
      recommendation := some "REVIEW", safety_rating := some "UNKNOWN",
      notes := some (generateResearchNotes item),
      requires_further_research := true,
      item_details := itemDetails item t }

/-- One entry of a recommendation bucket, the projection built by
AIResearcher.generate_recommendations. -/
structure RecEntry where
  name : String
  rtype : String
  category : Option String
  purpose : Option String
  safety_rating : Option String
deriving DecidableEq

/-- The four recommendation buckets. -/
structure Buckets where
  remove : List RecEntry
  disable : List RecEntry
  keep : List RecEntry
  review : List RecEntry
deriving DecidableEq

/-- The bucket-entry projection of one research result. -/
def entryOf (t : String) (it : ResearchResult) : RecEntry :=
  { name := it.name, rtype := t, category := it.category,
    purpose := it.purpose, safety_rating := it.safety_rating }

/-- One loop body of generate_recommendations: append the projection to
the bucket keyed by the recommendation field; a recommendation outside
the four fixed keys raises KeyError, modelled as None. -/
def addRec (b : Buckets) (t : String) (it : ResearchResult) : Option Buckets :=
  match it.recommendation with
  | some v =>
    if v = "REMOVE" then some { b with remove := b.remove ++ [entryOf t it] }
    else if v = "DISABLE" then some { b with disable := b.disable ++ [entryOf t it] }
    else if v = "KEEP" then some { b with keep := b.keep ++ [entryOf t it] }
    else if v = "REVIEW" then some { b with review := b.review ++ [entryOf t it] }
    else Option.none
  | Option.none => Option.none

/-- The nested iteration of generate_recommendations, aborting at the
first KeyError. -/
def genRecLoop (b : Buckets) (l : List (String × ResearchResult)) : Option Buckets :=
  match l with
  | [] => some b
  | (t, it) :: rest =>
    match addRec b t it with
    | some b2 => genRecLoop b2 rest
    | Option.none => Option.none

/-- The traversal order of generate_recommendations: kinds in mapping
order, then items in within-kind order. -/
def flattenResults (results : List (String × List ResearchResult)) :
    List (String × ResearchResult) :=
  (results.map (fun p => p.2.map (fun it => (p.1, it)))).flatten

/-- AIResearcher.generate_recommendations. -/
def generateRecommendations (results : List (String × List ResearchResult)) :
    Option Buckets :=
  genRecLoop { remove := [], disable := [], keep := [], review := [] } (flattenResults results)

/-- One audit entry recorded by AuditLogger.log_change. -/
structure Change where
  timestamp : String
  action : String
  target : String
  target_type : String
  before_state : Val
  after_state : Val
  rollback_command : String
  success : Bool
  error : Option String
deriving DecidableEq

/-- The session summary returned by AuditLogger.get_summary. -/
structure Summary where
  session_id : String
  total_changes : Nat
  successful : Nat
  failed : Nat
  by_type : List (String × Nat)
  log_file : String
  rollback_file : String
deriving DecidableEq

/-- State of an AuditLogger session: the change list, the in-memory
rollback command list, and the line-level contents of the files it
writes (the execution log is append-only; the rollback script and the
YAML log are overwritten on each save). -/
structure LoggerState where
  output_dir : String
  session_id : String
  changes : List Change
  rollback_commands : List String
  log_lines : List String
  rollback_script : List String
  yaml_log : Option (List Change)
deriving DecidableEq

/-- The 70-character comment bar written by the logger. -/
def eqBar : String := String.mk (List.replicate 70 '=')

/-- Path of the execution log file. -/
def logFilePath (st : LoggerState) : String :=
  st.output_dir ++ "/" ++ st.session_id ++ "_execution.log"

/-- Path of the rollback script file. -/
def rollbackFilePath (st : LoggerState) : String :=
  st.output_dir ++ "/" ++ st.session_id ++ "_rollback.ps1"

/-- AuditLogger construction: empty change and rollback lists and the
freshly written log header. -/
def initLogger (dir sid ts : String) : LoggerState :=
  { output_dir := dir, session_id := sid, changes := [], rollback_commands := [],
    log_lines := ["# Windows Optimization Toolkit - Audit Log",
      "# Session: " ++ sid, "# Started: " ++ ts, "# " ++ eqBar, ""],
    rollback_script := [], yaml_log := Option.none }

/-- AuditLogger.log_change, with the timestamp passed in explicitly. -/
def logChange (st : LoggerState) (ts action target ttype : String) (before after : Val)
    (rollback : String) (success : Bool) (error : Option String) : LoggerState :=
  let c : Change :=
    { timestamp := ts, action := action, target := target,
      target_type := ttype, before_state := before, after_state := after,
      rollback_command := rollback, success := success, error := error }
  let status := if success then "SUCCESS" else "FAILED"
  let lines := ["[" ++ ts ++ "] " ++ status ++ ": " ++ action ++ " - " ++ target,
      "  Type: " ++ ttype,
      "  Before: " ++ before.pyStr,
      "  After: " ++ after.pyStr] ++
    (match error with
     | some e => if e != "" then ["  Error: " ++ e] else []
     | Option.none => []) ++
    ["  Rollback: " ++ rollback, ""]
  let st2 := { st with changes := st.changes ++ [c], log_lines := st.log_lines ++ lines }
  if success && rollback != "" then
    { st2 with rollback_commands := st2.rollback_commands ++
        ["# Rollback: " ++ action ++ " - " ++ target, rollback, ""] }
  else st2

/-- AuditLogger.log_dry_run: log lines only, never touches the rollback
list. -/
def logDryRun (st : LoggerState) (ts action target ttype : String)
    (current planned : Val) : LoggerState :=
  { st with log_lines := st.log_lines ++
      ["[" ++ ts ++ "] DRY-RUN: " ++ action ++ " - " ++ target,
       "  Type: " ++ ttype, "  Current: " ++ current.pyStr,
       "  Planned: " ++ planned.pyStr, ""] }

/-- The rollback-command section emitted by save_rollback_script: the
recorded rollback list written in reverse order.  The fixed script
header and footer lines around it are elided. -/
def rollbackSection (st : LoggerState) : List String := st.rollback_commands.reverse

/-- AuditLogger.save_rollback_script: overwrite the rollback script
file. -/
def saveRollbackScript (st : LoggerState) : LoggerState :=
  { st with rollback_script := rollbackSection st }

/-- The by_type counter update: by_type[t] = by_type.get(t, 0) + 1 on an
insertion-ordered dictionary. -/
def bumpType (m : List (String × Nat)) (t : String) : List (String × Nat) :=
  match m with
  | [] => [(t, 1)]
  | (k, n) :: rest => if k = t then (k, n + 1) :: rest else (k, n) :: bumpType rest t

/-- AuditLogger.get_summary. -/
def getSummary (st : LoggerState) : Summary :=
  let succ := st.changes.filter (fun c => c.success)
  let fail := st.changes.filter (fun c => !c.success)
  { session_id := st.session_id, total_changes := st.changes.length,
    successful := succ.length, failed := fail.length,
    by_type := succ.foldl (fun m c => bumpType m c.target_type) [],
    log_file := logFilePath st, rollback_file := rollbackFilePath st }

/-- The session-complete footer appended to the execution log by
finalize. -/
def finalizeFooter (ts : String) (s : Summary) : List String :=
  ["", "# " ++ eqBar,
   "# Session Complete: " ++ ts,
   "# Total changes: " ++ toString s.total_changes,
   "# Successful: " ++ toString s.successful,
   "# Failed: " ++ toString s.failed,
   "# Rollback script: " ++ s.rollback_file]

/-- AuditLogger.finalize: save the rollback script, compute the summary,
append the session-complete footer to the execution log, overwrite the
YAML change log, and return the summary. -/
def finalize (st : LoggerState) (ts : String) : Summary × LoggerState :=
  let st1 := saveRollbackScript st
  let summary := getSummary st1
  let st2 := { st1 with log_lines := st1.log_lines ++ finalizeFooter ts summary }
  let st3 := { st2 with yaml_log := some st2.changes }
  (summary, st3)

/-- The single bloatware-pattern reason produced by the first matching
rule, if any: the specification wording for the pattern stage. -/
def patMatch (ps : List Pattern) (txt : String) : List String :=
  match ps.find? (fun p => p.test txt) with
  | some p => ["Matches bloatware pattern: " ++ p.src]
  | Option.none => []

/-- A filter with the pattern catalogue emptied, used to express that
the non-pattern reason categories are evaluated independently of the
pattern stage. -/
def noPatterns (f : SuspectFilter) : SuspectFilter :=
  { f with patterns := [] }

/-- Test for a bloatware-pattern reason string. -/
def isPatReason (s : String) : Bool := strStartsWith s "Matches bloatware pattern: "

/-- The specification wording for exact lookup: first entry with the
exact key, in iteration order. -/
def lookupExactSpec (kb : List (String × Val)) (name : String) : Option Val :=
  (kb.find? (fun p => p.1 == name)).map Prod.snd

/-- The specification wording for case-insensitive exact lookup: first
entry whose folded key equals the folded name, in iteration order. -/
def lookupFoldSpec (kb : List (String × Val)) (name : String) : Option Val :=
  (kb.find? (fun p => strLower p.1 == strLower name)).map Prod.snd

/-- The specification wording for bidirectional substring lookup: first
entry whose folded key is contained in the folded name or vice versa. -/
def lookupSubSpec (kb : List (String × Val)) (name : String) : Option Val :=
  (kb.find? (fun p =>
    strContains (strLower name) (strLower p.1) || strContains (strLower p.1) (strLower name))).map Prod.snd

/-- The specification wording for the Research Resolver lookup order:
exact match, else case-insensitive exact match, else bidirectional
substring match. -/
def lookupKnownSpec (kb : List (String × Val)) (name : String) : Option Val :=
  (lookupExactSpec kb name <|> lookupFoldSpec kb name) <|> lookupSubSpec kb name

/-- Exact then case-insensitive lookup with no substring stage: what the
classification-time known-info lookup actually performs. -/
def lookupNoSubSpec (kb : List (String × Val)) (name : String) : Option Val :=
  lookupExactSpec kb name <|> lookupFoldSpec kb name

/-- One recommendation bucket as the specification describes it: the
projections of the results carrying that recommendation, in traversal
order. -/
def bucketFilter (v : String) (l : List (String × ResearchResult)) : List RecEntry :=
  (l.filter (fun q => decide (q.2.recommendation = some v))).map (fun q => entryOf q.1 q.2)

/-- A filter with empty pattern list, empty Critical-Keep Set, default
thresholds and default flags. -/
def fPlain : SuspectFilter :=
  { patterns := [], critical_keep := [], high_memory_threshold := 2,
    high_cpu_threshold := 5, flag_non_microsoft := true, known_processes := [] }

/-- A filter whose Critical-Keep Set contains explorer.exe, with an
always-matching pattern and adversarial thresholds. -/
def fKeep : SuspectFilter :=
  { patterns := [{ src := "evil", test := fun _ => true }], critical_keep := ["explorer.exe"],
    high_memory_threshold := 0, high_cpu_threshold := 0,
    flag_non_microsoft := true, known_processes := [] }

/-- A record that matches every pattern, exceeds every threshold and
fails every provenance check, but is named explorer.exe. -/
def rKeep : Rec :=
  [("name", Val.str "Explorer.EXE"), ("memory_percent", Val.num 99),
   ("cpu_percent", Val.num 99), ("signature", Val.str "Evil Corp"),
   ("exe_path", Val.str "evil.exe"), ("cmdline", Val.str "evil"),
   ("display_name", Val.str "evil"), ("path", Val.str "evil"),
   ("command", Val.str "evil"), ("actions", Val.str "evil"),
   ("is_microsoft", Val.bool false), ("start_mode", Val.str "Auto"),
   ("state", Val.str "Running"), ("runs_at_logon", Val.bool true),
   ("enabled", Val.bool true)]

/-- A minimal record carrying only a name. -/
def rPlain : Rec := [("name", Val.str "foo")]

/-- A compiler that accepts every pattern source as an always-matching
rule. -/
def compAll : String → Option Pattern :=
  fun s => some { src := s, test := fun _ => true }

/-- A filter built from two compiled pattern sources. -/
def fPats : SuspectFilter :=
  { patterns := compilePatterns compAll ["p1"] ["p2"], critical_keep := [],
    high_memory_threshold := 2, high_cpu_threshold := 5,
    flag_non_microsoft := true, known_processes := [] }

/-- A one-entry knowledge base keyed Razer. -/
def razerInfo : Val := Val.dict [("recommendation", "KEEP")]

/-- The knowledge base holding only the Razer entry. -/
def kbRazer : List (String × Val) := [("Razer", razerInfo)]

/-- An item with a truthy attached known_info field. -/
def itemAttached : Rec := [("name", Val.str "RazerChromaService"),
  ("known_info", Val.dict [("category", "rgb_software")])]

/-- The attached known-info value of itemAttached. -/
def attachedInfo : Val := Val.dict [("category", "rgb_software")]

/-- An item with no name match anywhere and no category keyword. -/
def itemUnknown : Rec := [("name", Val.str "XClientService")]

/-- A research result whose recommendation was copied verbatim from a
knowledge-base entry outside the four fixed buckets. -/
def rrUninstall : ResearchResult :=
  { name := "X", rtype := "process", researched_at := "T", suspect_reasons := [],
    source := "known_processes_database", category := Option.none,
    publisher := Option.none, purpose := Option.none,
    recommendation := some "UNINSTALL", safety_rating := Option.none,
    notes := Option.none, requires_further_research := false, item_details := [] }

/-- A research result recommending REMOVE. -/
def rrRemove : ResearchResult :=
  { name := "A", rtype := "process", researched_at := "T", suspect_reasons := [],
    source := "known_processes_database", category := some "gaming",
    publisher := Option.none, purpose := some "p",
    recommendation := some "REMOVE", safety_rating := some "SAFE",
    notes := Option.none, requires_further_research := false, item_details := [] }

/-- A research result recommending REVIEW. -/
def rrReview : ResearchResult :=
  { name := "B", rtype := "service", researched_at := "T", suspect_reasons := [],
    source := "needs_research", category := some "unknown",
    publisher := Option.none, purpose := Option.none,
    recommendation := some "REVIEW", safety_rating := some "UNKNOWN",
    notes := Option.none, requires_further_research := true, item_details := [] }

/-- A two-kind research-result collection with valid recommendations. -/
def resultsValid : List (String × List ResearchResult) :=
  [("processes", [rrRemove]), ("services", [rrReview])]

/-- A journal with one successful change recorded. -/
def logA : LoggerState :=
  logChange (initLogger "d" "S" "T0") "T1" "disable_service" "Foo" "service"
    (Val.str "Auto") (Val.str "Disabled") "Set-Service Foo -StartupType Automatic"
    true Option.none

/-- A journal holding, in order: a successful change with rollback
command cmdFoo, a dry run, a failed change, and a successful change with
rollback command cmdBar. -/
def logB : LoggerState :=
  logChange
    (logChange
      (logDryRun
        (logChange (initLogger "d" "S" "T0") "T1" "disable_service" "Foo" "service"
          (Val.str "Auto") (Val.str "Disabled") "cmdFoo" true Option.none)
        "T2" "preview" "Baz" "service" (Val.str "x") (Val.str "y"))
      "T3" "disable_service" "Err" "service" (Val.str "Auto") (Val.str "Auto")
      "cmdErr" false (some "boom"))
    "T4" "disable_service" "Bar" "service" (Val.str "Auto") (Val.str "Disabled")
    "cmdBar" true Option.none

/-- A record arriving with a pre-existing is_suspect field set true. -/
def rPre : Rec := [("name", Val.str "foo"), ("is_suspect", Val.bool true)]

theorem patternLoop_eq (ps : List Pattern) (txt : String) (acc : List String) :
    patternLoop ps txt acc = acc ++ patMatch ps txt := by
  induction ps with
  | nil => simp [patternLoop, patMatch, List.find?]
  | cons p rest ih =>
    cases h : p.test txt with
    | true => simp [patternLoop, patMatch, List.find?, h]
    | false => simp [patternLoop, patMatch, List.find?, h, ih]

theorem getK_markRecord_ne (f : SuspectFilter) (reasons : List String) (r : Rec)
    (k : String) (h1 : k ≠ "is_suspect") (h2 : k ≠ "suspect_reasons")
    (h3 : k ≠ "known_info") :
    getK (markRecord f reasons r) k = getK r k := by
  unfold markRecord
  rw [getK_setK_ne _ _ _ _ h3, getK_setK_ne _ _ _ _ h2, getK_setK_ne _ _ _ _ h1]

theorem getK_markRecord_suspect (f : SuspectFilter) (reasons : List String) (r : Rec) :
    getK (markRecord f reasons r) "is_suspect" =
      some (Val.bool (decide (0 < reasons.length))) := by
  unfold markRecord
  rw [getK_setK_ne _ _ _ _ (by decide), getK_setK_ne _ _ _ _ (by decide), getK_setK_same]

theorem getK_markRecord_reasons (f : SuspectFilter) (reasons : List String) (r : Rec) :
    getK (markRecord f reasons r) "suspect_reasons" = some (Val.list reasons) := by
  unfold markRecord
  rw [getK_setK_ne _ _ _ _ (by decide), getK_setK_same]

theorem getK_markRecord_known (f : SuspectFilter) (reasons : List String) (r : Rec) :
    (getK (markRecord f reasons r) "known_info").isSome = true := by
  unfold markRecord
  rw [getK_setK_same]
  rfl

theorem isPrefixOf_self_append (l m : List Char) : l.isPrefixOf (l ++ m) = true := by
  induction l with
  | nil => simp [List.isPrefixOf]
  | cons c rest ih => simp [List.isPrefixOf, ih]

theorem strStartsWith_self_append (p s : String) : strStartsWith (p ++ s) p = true := by
  show List.isPrefixOf p.data (p.data ++ s.data) = true
  exact isPrefixOf_self_append p.data s.data

theorem patMatch_nil (txt : String) : patMatch [] txt = [] := rfl

theorem mem_reason_not_pat (s t : String) :
    isPatReason ("High memory usage: " ++ s ++ t) = false := rfl

theorem cpu_reason_not_pat (s t : String) :
    isPatReason ("High CPU usage: " ++ s ++ t) = false := rfl

theorem sig_reason_not_pat (s : String) :
    isPatReason ("Non-Microsoft signed: " ++ s) = false := rfl

theorem unsigned_reason_not_pat : isPatReason "Unsigned or signature not found" = false := rfl

theorem auto_reason_not_pat :
    isPatReason "Third-party service set to Auto start" = false := rfl

theorem running_reason_not_pat :
    isPatReason "Third-party service currently running" = false := rfl

theorem enabled_reason_not_pat : isPatReason "Enabled startup item" = false := rfl

theorem logon_reason_not_pat :
    isPatReason "Third-party task runs at logon/boot" = false := rfl

theorem ready_reason_not_pat : isPatReason "Third-party task is enabled" = false := rfl

theorem pat_reason_is_pat (s : String) :
    isPatReason ("Matches bloatware pattern: " ++ s) = true := by
  unfold isPatReason
  exact strStartsWith_self_append "Matches bloatware pattern: " s

theorem ite_append (c : Prop) [Decidable c] (x t : List String) :
    (if c then x ++ t else x) = x ++ (if c then t else []) := by
  split_ifs <;> simp

set_option maxHeartbeats 1000000 in
theorem reasonsProcess_decomp (f : SuspectFilter) (r : Rec)
    (hk : nameLower r ∉ f.critical_keep) :
    suspectReasonsProcess f r =
      patMatch f.patterns (fullTextProcess r) ++ suspectReasonsProcess (noPatterns f) r := by
  simp only [suspectReasonsProcess, noPatterns]
  rw [if_neg hk, if_neg hk]
  simp only [patternLoop_eq, patMatch_nil, List.nil_append, List.append_nil]
  cases hfl : f.flag_non_microsoft with
  | false =>
    simp only [Bool.false_eq_true, if_neg, ite_false, ite_append, List.append_assoc]
    split_ifs <;> simp [List.append_assoc]
  | true =>
    simp only [ite_true]
    rcases hs : getK r "signature" with _ | v
    · simp only [ite_append, List.append_assoc]
      split_ifs <;> simp [List.append_assoc]
    · cases v <;> simp only [ite_append, List.append_assoc] <;>
        split_ifs <;> simp [List.append_assoc]

set_option maxHeartbeats 1000000 in
theorem reasonsService_decomp (f : SuspectFilter) (r : Rec)
    (hk : nameLower r ∉ f.critical_keep) :
    suspectReasonsService f r =
      patMatch f.patterns (fullTextService r) ++ suspectReasonsService (noPatterns f) r := by
  simp only [suspectReasonsService, noPatterns]
  rw [if_neg hk, if_neg hk]
  simp only [patternLoop_eq, patMatch_nil, List.nil_append, List.append_nil]
  simp only [ite_append, List.append_assoc]
  all_goals split_ifs <;> simp [List.append_assoc]

set_option maxHeartbeats 1000000 in
theorem reasonsStartup_decomp (f : SuspectFilter) (r : Rec)
    (hk : nameLower r ∉ f.critical_keep) :
    suspectReasonsStartup f r =
      patMatch f.patterns (fullTextStartup r) ++ suspectReasonsStartup (noPatterns f) r := by
  simp only [suspectReasonsStartup, noPatterns]
  rw [if_neg hk, if_neg hk]
  simp only [patternLoop_eq, patMatch_nil, List.nil_append, List.append_nil]
  simp only [ite_append, List.append_assoc]

set_option maxHeartbeats 1000000 in
theorem reasonsTask_decomp (f : SuspectFilter) (r : Rec)
    (hk : nameLower r ∉ f.critical_keep) :
    suspectReasonsTask f r =
      patMatch f.patterns (fullTextTask r) ++ suspectReasonsTask (noPatterns f) r := by
  simp only [suspectReasonsTask, noPatterns]
  rw [if_neg hk, if_neg hk]
  simp only [patternLoop_eq, patMatch_nil, List.nil_append, List.append_nil]
  simp only [ite_append, List.append_assoc]
  all_goals split_ifs <;> simp [List.append_assoc]

theorem countP_patMatch (ps : List Pattern) (txt : String) :
    (patMatch ps txt).countP isPatReason = (patMatch ps txt).length := by
  unfold patMatch
  cases h : ps.find? (fun p => p.test txt) with
  | none => rfl
  | some p => simp [List.countP_cons, pat_reason_is_pat]

set_option maxHeartbeats 1000000 in
theorem countP_noPat_process (f : SuspectFilter) (r : Rec) :
    (suspectReasonsProcess (noPatterns f) r).countP isPatReason = 0 := by
  simp only [suspectReasonsProcess, noPatterns]
  by_cases hk : nameLower r ∈ f.critical_keep
  · rw [if_pos hk]
    rfl
  · rw [if_neg hk]
    simp only [patternLoop]
    cases hfl : f.flag_non_microsoft with
    | false =>
      split_ifs <;>
        simp_all [List.countP_append, List.countP_cons, List.countP_nil,
          mem_reason_not_pat, cpu_reason_not_pat, sig_reason_not_pat,
          unsigned_reason_not_pat, auto_reason_not_pat, running_reason_not_pat,
          enabled_reason_not_pat, logon_reason_not_pat, ready_reason_not_pat,
          -List.countP_eq_zero]
    | true =>
      rcases hs : getK r "signature" with _ | v
      · split_ifs <;>
          simp_all [List.countP_append, List.countP_cons, List.countP_nil,
          mem_reason_not_pat, cpu_reason_not_pat, sig_reason_not_pat,
          unsigned_reason_not_pat, auto_reason_not_pat, running_reason_not_pat,
          enabled_reason_not_pat, logon_reason_not_pat, ready_reason_not_pat,
          -List.countP_eq_zero]
      · cases v <;> split_ifs <;>
          simp_all [List.countP_append, List.countP_cons, List.countP_nil,
          mem_reason_not_pat, cpu_reason_not_pat, sig_reason_not_pat,
          unsigned_reason_not_pat, auto_reason_not_pat, running_reason_not_pat,
          enabled_reason_not_pat, logon_reason_not_pat, ready_reason_not_pat,
          -List.countP_eq_zero]
        all_goals split_ifs <;>
          simp [List.countP_append, List.countP_cons, List.countP_nil,
            mem_reason_not_pat, cpu_reason_not_pat, sig_reason_not_pat,
            -List.countP_eq_zero]

set_option maxHeartbeats 1000000 in
theorem countP_noPat_service (f : SuspectFilter) (r : Rec) :
    (suspectReasonsService (noPatterns f) r).countP isPatReason = 0 := by
  simp only [suspectReasonsService, noPatterns]
  by_cases hk : nameLower r ∈ f.critical_keep
  · rw [if_pos hk]
    rfl
  · rw [if_neg hk]
    simp only [patternLoop]
    split_ifs <;>
      simp_all [List.countP_append, List.countP_cons, List.countP_nil,
          mem_reason_not_pat, cpu_reason_not_pat, sig_reason_not_pat,
          unsigned_reason_not_pat, auto_reason_not_pat, running_reason_not_pat,
          enabled_reason_not_pat, logon_reason_not_pat, ready_reason_not_pat,
          -List.countP_eq_zero]

set_option maxHeartbeats 1000000 in
theorem countP_noPat_startup (f : SuspectFilter) (r : Rec) :
    (suspectReasonsStartup (noPatterns f) r).countP isPatReason = 0 := by
  simp only [suspectReasonsStartup, noPatterns]
  by_cases hk : nameLower r ∈ f.critical_keep
  · rw [if_pos hk]
    rfl
  · rw [if_neg hk]
    simp only [patternLoop]
    split_ifs <;>
      simp_all [List.countP_append, List.countP_cons, List.countP_nil,
          mem_reason_not_pat, cpu_reason_not_pat, sig_reason_not_pat,
          unsigned_reason_not_pat, auto_reason_not_pat, running_reason_not_pat,
          enabled_reason_not_pat, logon_reason_not_pat, ready_reason_not_pat,
          -List.countP_eq_zero]

set_option maxHeartbeats 1000000 in
theorem countP_noPat_task (f : SuspectFilter) (r : Rec) :
    (suspectReasonsTask (noPatterns f) r).countP isPatReason = 0 := by
  simp only [suspectReasonsTask, noPatterns]
  by_cases hk : nameLower r ∈ f.critical_keep
  · rw [if_pos hk]
    rfl
  · rw [if_neg hk]
    simp only [patternLoop]
    split_ifs <;>
      simp_all [List.countP_append, List.countP_cons, List.countP_nil,
          mem_reason_not_pat, cpu_reason_not_pat, sig_reason_not_pat,
          unsigned_reason_not_pat, auto_reason_not_pat, running_reason_not_pat,
          enabled_reason_not_pat, logon_reason_not_pat, ready_reason_not_pat,
          -List.countP_eq_zero]

theorem lookupExact_eq (kb : List (String × Val)) (name : String) :
    lookupExact kb name = lookupExactSpec kb name := by
  induction kb with
  | nil => rfl
  | cons p rest ih =>
    obtain ⟨k, v⟩ := p
    cases hb : (k == name) with
    | true =>
      have hk : k = name := eq_of_beq hb
      simp [lookupExact, lookupExactSpec, List.find?, hb, hk]
    | false =>
      have hk : ¬k = name := ne_of_beq_false hb
      simpa [lookupExact, lookupExactSpec, List.find?, hb, hk] using ih

theorem lookupCaseFold_eq (kb : List (String × Val)) (name : String) :
    lookupCaseFold kb name = lookupFoldSpec kb name := by
  induction kb with
  | nil => rfl
  | cons p rest ih =>
    obtain ⟨k, v⟩ := p
    cases hb : (strLower k == strLower name) with
    | true =>
      have hk : strLower k = strLower name := eq_of_beq hb
      simp [lookupCaseFold, lookupFoldSpec, List.find?, hb, hk]
    | false =>
      have hk : ¬strLower k = strLower name := ne_of_beq_false hb
      simpa [lookupCaseFold, lookupFoldSpec, List.find?, hb, hk] using ih

theorem lookupSub_eq (kb : List (String × Val)) (name : String) :
    lookupSub kb (strLower name) = lookupSubSpec kb name := by
  induction kb with
  | nil => rfl
  | cons p rest ih =>
    obtain ⟨k, v⟩ := p
    cases hb : (strContains (strLower name) (strLower k) || strContains (strLower k) (strLower name)) with
    | true => simp [lookupSub, lookupSubSpec, List.find?, hb]
    | false => simpa [lookupSub, lookupSubSpec, List.find?, hb] using ih

theorem lookupKnown_eq (kb : List (String × Val)) (name : String) :
    lookupKnown kb name = lookupKnownSpec kb name := by
  unfold lookupKnown lookupKnownSpec
  rw [lookupExact_eq, lookupCaseFold_eq, lookupSub_eq]
  cases hE : lookupExactSpec kb name with
  | some v => simp [Option.orElse]
  | none =>
    cases hF : lookupFoldSpec kb name with
    | some v => simp [Option.orElse]
    | none => simp [Option.orElse]

theorem suspectGetKnownInfo_eq (kb : List (String × Val)) (name : String) :
    suspectGetKnownInfo kb name = lookupNoSubSpec kb name := by
  unfold suspectGetKnownInfo lookupNoSubSpec
  rw [lookupExact_eq, lookupCaseFold_eq]
  cases hE : lookupExactSpec kb name with
  | some v => simp [Option.orElse]
  | none => simp [Option.orElse]

set_option maxHeartbeats 2000000 in
theorem guessCategory_eq_firstBucketSpec (item : Rec) :
    guessCategory item = firstBucketSpec (guessName item) (guessPath item) := by
  unfold guessCategory firstBucketSpec categoryBuckets
  generalize guessName item = nm
  generalize guessPath item = pth
  cases h1 : (["update", "updater"].any fun x => strContains nm x || strContains pth x) <;>
    cases h2 : (["rgb", "chroma", "lighting", "icue"].any fun x => strContains nm x || strContains pth x) <;>
    cases h3 : (["copilot", "recall", "cortana", "ai"].any fun x => strContains nm x || strContains pth x) <;>
    cases h4 : (["telemetry", "diag", "feedback"].any fun x => strContains nm x || strContains pth x) <;>
    cases h5 : (["game", "steam", "epic", "xbox"].any fun x => strContains nm x || strContains pth x) <;>
    cases h6 : (["driver", "drv"].any fun x => strContains nm x || strContains pth x) <;>
    cases h7 : (["security", "antivirus", "defender"].any fun x => strContains nm x || strContains pth x) <;>
    simp [List.find?, h1, h2, h3, h4, h5, h6, h7]

/-- The four canonical recommendation values. -/
def validRecommendation (it : ResearchResult) : Prop :=
  it.recommendation = some "REMOVE" ∨ it.recommendation = some "DISABLE" ∨
  it.recommendation = some "KEEP" ∨ it.recommendation = some "REVIEW"

instance (it : ResearchResult) : Decidable (validRecommendation it) := by
  unfold validRecommendation
  infer_instance

set_option maxHeartbeats 1000000 in
theorem genRecLoop_eq (l : List (String × ResearchResult)) (b : Buckets)
    (h : ∀ q ∈ l, validRecommendation q.2) :
    genRecLoop b l = some
      { remove := b.remove ++ bucketFilter "REMOVE" l,
        disable := b.disable ++ bucketFilter "DISABLE" l,
        keep := b.keep ++ bucketFilter "KEEP" l,
        review := b.review ++ bucketFilter "REVIEW" l } := by
  induction l generalizing b with
  | nil => simp [genRecLoop, bucketFilter]
  | cons q rest ih =>
    obtain ⟨t, it⟩ := q
    have hq : validRecommendation it := h (t, it) (List.mem_cons_self _ _)
    have hrest : ∀ q ∈ rest, validRecommendation q.2 :=
      fun q hq2 => h q (List.mem_cons_of_mem _ hq2)
    rcases hq with h4 | h4 | h4 | h4 <;>
      simp [genRecLoop, addRec, h4, ih _ hrest, bucketFilter, List.filter_cons]

theorem markRecord_isSome (f : SuspectFilter) (reasons : List String) (r : Rec) :
    (getK (markRecord f reasons r) "is_suspect").isSome = true ∧
    (getK (markRecord f reasons r) "suspect_reasons").isSome = true ∧
    (getK (markRecord f reasons r) "known_info").isSome = true := by
  refine ⟨?_, ?_, ?_⟩
  · rw [getK_markRecord_suspect]
    rfl
  · rw [getK_markRecord_reasons]
    rfl
  · exact getK_markRecord_known f reasons r

/-- C1: for every inventory record of any kind whose folded name is in
the Critical-Keep Set, classification returns is_suspect false and an
empty reason list, regardless of every other field value. -/
theorem c1_critical_keep_never_suspect (f : SuspectFilter) (r : Rec)
    (h : nameLower r ∈ f.critical_keep) :
    suspectReasonsProcess f r = [] ∧ suspectReasonsService f r = [] ∧
    suspectReasonsStartup f r = [] ∧ suspectReasonsTask f r = [] ∧
    (getK (markProcess f r) "is_suspect" = some (Val.bool false) ∧
      getK (markProcess f r) "suspect_reasons" = some (Val.list [])) ∧
    (getK (markService f r) "is_suspect" = some (Val.bool false) ∧
      getK (markService f r) "suspect_reasons" = some (Val.list [])) ∧
    (getK (markStartup f r) "is_suspect" = some (Val.bool false) ∧
      getK (markStartup f r) "suspect_reasons" = some (Val.list [])) ∧
    (getK (markTask f r) "is_suspect" = some (Val.bool false) ∧
      getK (markTask f r) "suspect_reasons" = some (Val.list [])) := by
  have hp : suspectReasonsProcess f r = [] := by simp [suspectReasonsProcess, h]
  have hs : suspectReasonsService f r = [] := by simp [suspectReasonsService, h]
  have hu : suspectReasonsStartup f r = [] := by simp [suspectReasonsStartup, h]
  have ht : suspectReasonsTask f r = [] := by simp [suspectReasonsTask, h]
  refine ⟨hp, hs, hu, ht, ⟨?_, ?_⟩, ⟨?_, ?_⟩, ⟨?_, ?_⟩, ⟨?_, ?_⟩⟩
  · simp [markProcess, hp, getK_markRecord_suspect]
  · simp [markProcess, hp, getK_markRecord_reasons]
  · simp [markService, hs, getK_markRecord_suspect]
  · simp [markService, hs, getK_markRecord_reasons]
  · simp [markStartup, hu, getK_markRecord_suspect]
  · simp [markStartup, hu, getK_markRecord_reasons]
  · simp [markTask, ht, getK_markRecord_suspect]
  · simp [markTask, ht, getK_markRecord_reasons]

/-- Witness for C1: the explorer.exe record matching every pattern,
exceeding every threshold and failing every provenance check is still
classified not-suspect with no reasons. -/
theorem c1_witness :
    nameLower rKeep ∈ fKeep.critical_keep ∧
    suspectReasonsProcess fKeep rKeep = [] ∧
    getK (markProcess fKeep rKeep) "is_suspect" = some (Val.bool false) :=
  ⟨by decide, (c1_critical_keep_never_suspect fKeep rKeep (by decide)).1,
    (c1_critical_keep_never_suspect fKeep rKeep (by decide)).2.2.2.2.1.1⟩

/-- C2: evaluating the journal at two successful recordings, a dry run
and a failed recording shows the emitted rollback section holds the two
commands in reverse recording order, but the label identifying each
action is printed after its command rather than before it (the flat
list reversal also reverses each label-command-blank triple). -/
theorem c2_rollback_labels_follow_commands :
    rollbackSection logB =
      ["", "cmdBar", "# Rollback: disable_service - Bar",
       "", "cmdFoo", "# Rollback: disable_service - Foo"] := rfl

/-- C3: every record processed by any of the four filter operations ends
with an is_suspect Boolean that is true exactly when its suspect_reasons
list is non-empty. -/
theorem c3_is_suspect_iff_reasons (f : SuspectFilter) :
    (∀ l r2, r2 ∈ filterProcesses f l →
      ∃ b rs, getK r2 "is_suspect" = some (Val.bool b) ∧
        getK r2 "suspect_reasons" = some (Val.list rs) ∧ (b = true ↔ rs ≠ [])) ∧
    (∀ l r2, r2 ∈ filterServices f l →
      ∃ b rs, getK r2 "is_suspect" = some (Val.bool b) ∧
        getK r2 "suspect_reasons" = some (Val.list rs) ∧ (b = true ↔ rs ≠ [])) ∧
    (∀ l r2, r2 ∈ filterStartupItems f l →
      ∃ b rs, getK r2 "is_suspect" = some (Val.bool b) ∧
        getK r2 "suspect_reasons" = some (Val.list rs) ∧ (b = true ↔ rs ≠ [])) ∧
    (∀ l r2, r2 ∈ filterTasks f l →
      ∃ b rs, getK r2 "is_suspect" = some (Val.bool b) ∧
        getK r2 "suspect_reasons" = some (Val.list rs) ∧ (b = true ↔ rs ≠ [])) := by
  have hgen : ∀ (reasons : List String) (r : Rec),
      ∃ b rs, getK (markRecord f reasons r) "is_suspect" = some (Val.bool b) ∧
        getK (markRecord f reasons r) "suspect_reasons" = some (Val.list rs) ∧
        (b = true ↔ rs ≠ []) := by
    intro reasons r
    refine ⟨decide (0 < reasons.length), reasons,
      getK_markRecord_suspect f reasons r, getK_markRecord_reasons f reasons r, ?_⟩
    simp [List.length_pos]
  refine ⟨?_, ?_, ?_, ?_⟩
  · intro l r2 hmem
    simp only [filterProcesses, List.mem_map] at hmem
    obtain ⟨r, hr, rfl⟩ := hmem
    exact hgen _ r
  · intro l r2 hmem
    simp only [filterServices, List.mem_map] at hmem
    obtain ⟨r, hr, rfl⟩ := hmem
    exact hgen _ r
  · intro l r2 hmem
    simp only [filterStartupItems, List.mem_map] at hmem
    obtain ⟨r, hr, rfl⟩ := hmem
    exact hgen _ r
  · intro l r2 hmem
    simp only [filterTasks, List.mem_map] at hmem
    obtain ⟨r, hr, rfl⟩ := hmem
    exact hgen _ r

/-- Witness for C3 at a concrete one-record batch. -/
theorem c3_witness :
    markProcess fPlain rPlain ∈ filterProcesses fPlain [rPlain] ∧
    (∃ b rs, getK (markProcess fPlain rPlain) "is_suspect" = some (Val.bool b) ∧
      getK (markProcess fPlain rPlain) "suspect_reasons" = some (Val.list rs) ∧
      (b = true ↔ rs ≠ [])) :=
  ⟨List.mem_singleton_self _,
    (c3_is_suspect_iff_reasons fPlain).1 [rPlain] _ (List.mem_singleton_self _)⟩

/-- C4: the pattern catalogue of the filter is the compiled defaults
followed by the compiled operator extensions; for a record outside the
Critical-Keep Set, the reason list of each kind is exactly the single
reason of the first matching rule over the kind text (if any) followed
by the unchanged non-pattern reasons, and the number of bloatware
pattern reasons equals the length of that first-match list, hence never
exceeds one. -/
theorem c4_first_pattern_wins (compile : String → Option Pattern)
    (defaults extra : List String) (f : SuspectFilter)
    (hf : f.patterns = compilePatterns compile defaults extra) (r : Rec)
    (hk : nameLower r ∉ f.critical_keep) :
    f.patterns = defaults.filterMap compile ++ extra.filterMap compile ∧
    (suspectReasonsProcess f r =
        patMatch f.patterns (fullTextProcess r) ++ suspectReasonsProcess (noPatterns f) r ∧
      (suspectReasonsProcess f r).countP isPatReason =
        (patMatch f.patterns (fullTextProcess r)).length) ∧
    (suspectReasonsService f r =
        patMatch f.patterns (fullTextService r) ++ suspectReasonsService (noPatterns f) r ∧
      (suspectReasonsService f r).countP isPatReason =
        (patMatch f.patterns (fullTextService r)).length) ∧
    (suspectReasonsStartup f r =
        patMatch f.patterns (fullTextStartup r) ++ suspectReasonsStartup (noPatterns f) r ∧
      (suspectReasonsStartup f r).countP isPatReason =
        (patMatch f.patterns (fullTextStartup r)).length) ∧
    (suspectReasonsTask f r =
        patMatch f.patterns (fullTextTask r) ++ suspectReasonsTask (noPatterns f) r ∧
      (suspectReasonsTask f r).countP isPatReason =
        (patMatch f.patterns (fullTextTask r)).length) := by
  refine ⟨by rw [hf]; exact List.filterMap_append defaults extra compile,
    ⟨reasonsProcess_decomp f r hk, ?_⟩, ⟨reasonsService_decomp f r hk, ?_⟩,
    ⟨reasonsStartup_decomp f r hk, ?_⟩, ⟨reasonsTask_decomp f r hk, ?_⟩⟩
  · rw [reasonsProcess_decomp f r hk, List.countP_append, countP_patMatch,
      countP_noPat_process]
    exact Nat.add_zero _
  · rw [reasonsService_decomp f r hk, List.countP_append, countP_patMatch,
      countP_noPat_service]
    exact Nat.add_zero _
  · rw [reasonsStartup_decomp f r hk, List.countP_append, countP_patMatch,
      countP_noPat_startup]
    exact Nat.add_zero _
  · rw [reasonsTask_decomp f r hk, List.countP_append, countP_patMatch,
      countP_noPat_task]
    exact Nat.add_zero _

/-- Witness for C4 on a filter compiled from two always-matching rule
sources. -/
theorem c4_witness :
    fPats.patterns = compilePatterns compAll ["p1"] ["p2"] ∧
    nameLower rPlain ∉ fPats.critical_keep ∧
    (suspectReasonsProcess fPats rPlain).countP isPatReason =
      (patMatch fPats.patterns (fullTextProcess rPlain)).length :=
  ⟨rfl, by decide,
    (c4_first_pattern_wins compAll ["p1"] ["p2"] fPats rfl rPlain (by decide)).2.1.2⟩

/-- C5 counterexample: aggregation is not total — a research result
whose recommendation field was copied verbatim from a knowledge-base
entry outside the four fixed buckets makes generate_recommendations
raise KeyError (modelled None) instead of bucketing the result. -/
theorem c5_counterexample :
    generateRecommendations [("processes", [rrUninstall])] = Option.none := rfl

/-- C5 amended: for collections whose results all carry one of the four
fixed recommendations, aggregation is total and order-preserving: each
bucket holds exactly the projections of the results carrying that
recommendation, in traversal order (kind order, then within-kind
order), so every such result lands in exactly one bucket. -/
theorem c5_aggregation_total_on_valid (results : List (String × List ResearchResult))
    (h : ∀ q ∈ flattenResults results, validRecommendation q.2) :
    generateRecommendations results = some
      { remove := bucketFilter "REMOVE" (flattenResults results),
        disable := bucketFilter "DISABLE" (flattenResults results),
        keep := bucketFilter "KEEP" (flattenResults results),
        review := bucketFilter "REVIEW" (flattenResults results) } := by
  unfold generateRecommendations
  rw [genRecLoop_eq _ _ h]
  simp

/-- Witness for C5 at a concrete two-kind collection. -/
theorem c5_witness :
    (∀ q ∈ flattenResults resultsValid, validRecommendation q.2) ∧
    generateRecommendations resultsValid = some
      { remove := bucketFilter "REMOVE" (flattenResults resultsValid),
        disable := bucketFilter "DISABLE" (flattenResults resultsValid),
        keep := bucketFilter "KEEP" (flattenResults resultsValid),
        review := bucketFilter "REVIEW" (flattenResults resultsValid) } :=
  ⟨by decide, c5_aggregation_total_on_valid resultsValid (by decide)⟩

/-- C6 counterexample: the substring fallback does not apply everywhere
the core looks up the Knowledge Base — the Research Resolver lookup
finds the Razer entry for RazerChromaService by substring, while the
classification-time lookup (_get_known_info) returns None on the very
same base and name. -/
theorem c6_counterexample :
    lookupKnown kbRazer "RazerChromaService" = some razerInfo ∧
    suspectGetKnownInfo kbRazer "RazerChromaService" = Option.none := by
  constructor
  · decide
  · decide

/-- C6 amended: the Research Resolver obtains authoritative data in the
order (a) truthy record-attached known_info, else (b) exact match, (c)
case-insensitive exact match, (d) bidirectional substring match, first
match in iteration order winning; the classification-time known-info
lookup performs only stages (b) and (c) and has no substring
fallback. -/
theorem c6_lookup_order (kb : List (String × Val)) (item : Rec) (v : Val)
    (hv : getK item "known_info" = some v) (ht : v.truthy = true) :
    chooseKnown kb item = some v ∧
    (∀ name, lookupKnown kb name = lookupKnownSpec kb name ∧
      suspectGetKnownInfo kb name = lookupNoSubSpec kb name) := by
  refine ⟨?_, fun name => ⟨lookupKnown_eq kb name, suspectGetKnownInfo_eq kb name⟩⟩
  simp [chooseKnown, hv, ht]

/-- Witness for C6 with a truthy attached entry and a concrete base. -/
theorem c6_witness :
    getK itemAttached "known_info" = some attachedInfo ∧
    attachedInfo.truthy = true ∧
    chooseKnown kbRazer itemAttached = some attachedInfo ∧
    lookupKnown kbRazer "Foo" = lookupKnownSpec kbRazer "Foo" :=
  ⟨rfl, rfl, (c6_lookup_order kbRazer itemAttached attachedInfo rfl rfl).1,
    ((c6_lookup_order kbRazer itemAttached attachedInfo rfl rfl).2 "Foo").1⟩

/-- C7: a suspect record with no knowledge-base match of any stage
resolves to source needs_research, recommendation REVIEW, safety rating
UNKNOWN, requires_further_research true, and a category equal to the
first keyword bucket in the fixed order whose keywords occur in the
lower-cased name or path, else unknown. -/
theorem c7_needs_research_defaults (kb : List (String × Val)) (item : Rec)
    (t ts : String) (h : chooseKnown kb item = Option.none) :
    (researchItem kb item t ts).source = "needs_research" ∧
    (researchItem kb item t ts).recommendation = some "REVIEW" ∧
    (researchItem kb item t ts).safety_rating = some "UNKNOWN" ∧
    (researchItem kb item t ts).requires_further_research = true ∧
    (researchItem kb item t ts).category =
      some (firstBucketSpec (guessName item) (guessPath item)) := by
  simp [researchItem, h, guessCategory_eq_firstBucketSpec]

/-- Witness for C7 at the XClientService scenario of the
specification. -/
theorem c7_witness :
    chooseKnown [] itemUnknown = Option.none ∧
    (researchItem [] itemUnknown "service" "T").source = "needs_research" ∧
    (researchItem [] itemUnknown "service" "T").recommendation = some "REVIEW" ∧
    (researchItem [] itemUnknown "service" "T").category = some "unknown" := by
  have hthm := c7_needs_research_defaults [] itemUnknown "service" "T" rfl
  exact ⟨rfl, hthm.1, hthm.2.1, by rw [hthm.2.2.2.2]; decide⟩

/-- C8 counterexample: finalize is not idempotent on the journal
content — a second finalize with no intervening record call appends the
session-complete footer to the execution log a second time, duplicating
that content. -/
theorem c8_counterexample :
    (finalize (finalize logA "T2").2 "T3").2.log_lines ≠
      (finalize logA "T2").2.log_lines ∧
    (finalize (finalize logA "T2").2 "T3").2.log_lines =
      (finalize logA "T2").2.log_lines ++ finalizeFooter "T3" (finalize logA "T2").1 := by
  constructor
  · decide
  · rfl

/-- C8 amended: finalize called a second time with no intervening record
call returns a summary identical to the first call's summary (the
execution-log footer, however, is appended again). -/
theorem c8_finalize_summary_idempotent (st : LoggerState) (t1 t2 : String) :
    (finalize (finalize st t1).2 t2).1 = (finalize st t1).1 := rfl

/-- C9 counterexample: a record arriving with a pre-existing is_suspect
field does not keep its value — the filter overwrites it. -/
theorem c9_counterexample :
    getK rPre "is_suspect" = some (Val.bool true) ∧
    getK (markProcess fPlain rPre) "is_suspect" = some (Val.bool false) := by
  constructor
  · rfl
  · decide

/-- C9 amended: each of the four filter operations sets exactly the
three fields is_suspect, suspect_reasons and known_info on every record
and leaves the value of every other pre-existing field unchanged; a
pre-existing field with one of those three names is overwritten rather
than preserved. -/
theorem c9_filter_frame (f : SuspectFilter) (r : Rec) (k : String)
    (h1 : k ≠ "is_suspect") (h2 : k ≠ "suspect_reasons") (h3 : k ≠ "known_info") :
    (getK (markProcess f r) k = getK r k ∧
      (getK (markProcess f r) "is_suspect").isSome = true ∧
      (getK (markProcess f r) "suspect_reasons").isSome = true ∧
      (getK (markProcess f r) "known_info").isSome = true) ∧
    (getK (markService f r) k = getK r k ∧
      (getK (markService f r) "is_suspect").isSome = true ∧
      (getK (markService f r) "suspect_reasons").isSome = true ∧
      (getK (markService f r) "known_info").isSome = true) ∧
    (getK (markStartup f r) k = getK r k ∧
      (getK (markStartup f r) "is_suspect").isSome = true ∧
      (getK (markStartup f r) "suspect_reasons").isSome = true ∧
      (getK (markStartup f r) "known_info").isSome = true) ∧
    (getK (markTask f r) k = getK r k ∧
      (getK (markTask f r) "is_suspect").isSome = true ∧
      (getK (markTask f r) "suspect_reasons").isSome = true ∧
      (getK (markTask f r) "known_info").isSome = true) :=
  ⟨⟨getK_markRecord_ne f _ r k h1 h2 h3, markRecord_isSome f _ r⟩,
    ⟨getK_markRecord_ne f _ r k h1 h2 h3, markRecord_isSome f _ r⟩,
    ⟨getK_markRecord_ne f _ r k h1 h2 h3, markRecord_isSome f _ r⟩,
    ⟨getK_markRecord_ne f _ r k h1 h2 h3, markRecord_isSome f _ r⟩⟩

/-- Witness for C9 at the name field of a concrete record. -/
theorem c9_witness :
    ("name" ≠ "is_suspect" ∧ "name" ≠ "suspect_reasons" ∧ "name" ≠ "known_info") ∧
    getK (markProcess fPlain rPlain) "name" = getK rPlain "name" :=
  ⟨⟨by decide, by decide, by decide⟩,
    (c9_filter_frame fPlain rPlain "name" (by decide) (by decide) (by decide)).1.1⟩

/-- C10: a startup item whose enabled field is absent is treated as
enabled — outside the Critical-Keep Set it receives the Enabled startup
item reason, is marked suspect, and its reason list is exactly the one
computed with enabled present and true. -/
theorem c10_absent_enabled (f : SuspectFilter) (r : Rec)
    (h1 : getK r "enabled" = Option.none) (h2 : nameLower r ∉ f.critical_keep) :
    "Enabled startup item" ∈ suspectReasonsStartup f r ∧
    getK (markStartup f r) "is_suspect" = some (Val.bool true) ∧
    suspectReasonsStartup f r =
      suspectReasonsStartup f (setK r "enabled" (Val.bool true)) := by
  have he : enabledFlag r = true := by simp [enabledFlag, h1]
  have hlist : suspectReasonsStartup f r =
      patternLoop f.patterns (fullTextStartup r) [] ++ ["Enabled startup item"] := by
    simp [suspectReasonsStartup, h2, he]
  refine ⟨?_, ?_, ?_⟩
  · rw [hlist]
    simp
  · have hsus := getK_markRecord_suspect f (suspectReasonsStartup f r) r
    rw [markStartup] at *
    rw [hsus, hlist]
    simp
  · have hname : nameLower (setK r "enabled" (Val.bool true)) = nameLower r := by
      simp only [nameLower, strFieldD]
      rw [getK_setK_ne _ _ _ _ (by decide)]
    have hft : fullTextStartup (setK r "enabled" (Val.bool true)) = fullTextStartup r := by
      simp only [fullTextStartup, pyFieldStr]
      rw [getK_setK_ne _ _ _ _ (by decide), getK_setK_ne _ _ _ _ (by decide)]
    have he2 : enabledFlag (setK r "enabled" (Val.bool true)) = true := by
      simp [enabledFlag, getK_setK_same, Val.truthy]
    rw [hlist]
    simp [suspectReasonsStartup, hname, h2, hft, he2]

/-- Witness for C10 at a startup record carrying only a name. -/
theorem c10_witness :
    getK rPlain "enabled" = Option.none ∧ nameLower rPlain ∉ fPlain.critical_keep ∧
    "Enabled startup item" ∈ suspectReasonsStartup fPlain rPlain ∧
    getK (markStartup fPlain rPlain) "is_suspect" = some (Val.bool true) := by
  have hthm := c10_absent_enabled fPlain rPlain rfl (by decide)
  exact ⟨rfl, by decide, hthm.1, hthm.2.1⟩
